import Mathlib

/-!
# dyndns/main.go : start-up sequence and route table

A shallow embedding of `func main()` of `src/dyndns/main.go`.

* The packages `config`, `db`, `webserver` and `dnsserver` are imported by
  main.go but their code is elsewhere.  What their calls return is an input of
  the model (`Env`); the calls themselves are recorded in a trace (`Event`).
* The echo instance is an explicit value (`Echo`) threaded through the
  registrations in source order.  `Group.Add` stores, as the echo library does,
  the middleware the group carries at the moment of the registration.
* The three function literals of main.go (catch-all redirect, logout, ping)
  are embedded as functions on a request context.
-/

namespace Dyndns

/-! ## Values of the imported packages -/

/-- The configuration value returned by `config.ParseEnvs`.  main.go reads the
fields `AdminLogin` and `LogoutUrl`; `Other` stands for every remaining setting
of the struct, none of which main.go reads. -/
structure Config where
  AdminLogin : String
  LogoutUrl : String
  Other : List String
  deriving DecidableEq, Repr

/-- The store handle returned by `db.InitDB`, identified by a number. -/
structure DBConn where
  Handle : Nat
  deriving DecidableEq, Repr

/-- The struct `webserver.Error`; main.go sets its field `Message`. -/
structure Error where
  Message : String
  deriving DecidableEq, Repr

/-- Nanoseconds, as `time.Duration`. -/
abbrev Duration := Int

/-- The constant `time.Second`. -/
def Second : Duration := 1000000000

/-- The constant `http.StatusOK`. -/
def StatusOK : Int := 200

/-- The struct literal `dnsserver.Server` with the four fields main.go sets. -/
structure Server where
  Host : String
  Port : Int
  RTimeout : Duration
  WTimeout : Duration
  deriving DecidableEq, Repr

/-- The struct literal `dnsserver.Handler` with the two fields main.go sets. -/
structure Handler where
  Config : Config
  DB : DBConn
  deriving DecidableEq, Repr

/-! ## The echo library, as far as main.go uses it -/

/-- The two credential validators main.go hands to `middleware.BasicAuth`,
both method values of the web handler `h`. -/
inductive Validator
  | AuthenticateAdmin
  | AuthenticateUpdate
  deriving DecidableEq, Repr

/-- The middleware values main.go creates: `middleware.Logger()` and
`middleware.BasicAuth(v)`. -/
inductive MiddlewareFunc
  | Logger
  | BasicAuth (v : Validator)
  deriving DecidableEq, Repr

/-- The handler functions main.go registers: the method values of the web
handler `h := webserver.New(conf, dbConn)`, then the three function literals
of main.go.  The logout literal closes over `conf`. -/
inductive HandlerFunc
  | ListHosts
  | AddHost
  | EditHost
  | AddCName
  | ListCNames
  | ShowLogs
  | ShowHostLogs
  | CreateHost
  | UpdateHost
  | DeleteHost
  | CreateCName
  | DeleteCName
  | UpdateIP
  | redirectAdmin
  | logout (conf : Config)
  | ping
  deriving DecidableEq, Repr

/-- One entry of the route table: HTTP method, full path, handler, and the
group middleware captured when the route was added. -/
structure Route where
  Method : String
  Path : String
  Handler : HandlerFunc
  Middleware : List MiddlewareFunc
  deriving DecidableEq, Repr

/-- The argument of `echoview.New(goview.Config{...})`, without the template
function map. -/
structure ViewConfig where
  Root : String
  Master : String
  Extension : String
  DisableCache : Bool
  deriving DecidableEq, Repr

/-- The echo instance `e`: global middleware (`e.Use`), renderer, validator
flag, static mounts and the route table, in registration order. -/
structure Echo where
  Middleware : List MiddlewareFunc
  Renderer : Option ViewConfig
  Validator : Bool
  Statics : List (String × String)
  Routes : List Route
  deriving DecidableEq, Repr

/-- A route group: its path head and the middleware it carries so far. -/
structure Group where
  Pfx : String
  Middleware : List MiddlewareFunc
  deriving DecidableEq, Repr

/-- The result of `echo.New()`. -/
def Echo.New : Echo :=
  { Middleware := [], Renderer := none, Validator := false, Statics := [], Routes := [] }

/-- The call `e.Use(m)`. -/
def Echo.Use (e : Echo) (m : MiddlewareFunc) : Echo :=
  { e with Middleware := e.Middleware ++ [m] }

/-- The call `e.Static(pfx, root)`. -/
def Echo.Static (e : Echo) (pfx root : String) : Echo :=
  { e with Statics := e.Statics ++ [(pfx, root)] }

/-- The call `e.Add(method, path, h)`: a route without group middleware. -/
def Echo.Add (e : Echo) (method path : String) (h : HandlerFunc)
    (m : List MiddlewareFunc) : Echo :=
  { e with Routes := e.Routes ++ [{ Method := method, Path := path, Handler := h, Middleware := m }] }

/-- The call `e.GET(path, h)`. -/
def Echo.GET (e : Echo) (path : String) (h : HandlerFunc) : Echo :=
  e.Add "GET" path h []

/-- The call `e.Group(pfx)`: a fresh group without middleware. -/
def Echo.Group (_e : Echo) (pfx : String) : Group :=
  { Pfx := pfx, Middleware := [] }

/-- The call `g.Use(m)`.  The library may also add, for the group, catch-all
routes bound to its own not-found handler; they are bound to no handler of
main.go, a later registration of main.go at the same method and path replaces
them, and they are not part of this table. -/
def Group.Use (g : Group) (m : MiddlewareFunc) : Group :=
  { g with Middleware := g.Middleware ++ [m] }

/-- The call `g.Add(method, path, h)`: the route is added to the echo instance
under the group path, with the middleware the group carries now. -/
def Group.Add (g : Group) (e : Echo) (method path : String) (h : HandlerFunc) : Echo :=
  e.Add method (g.Pfx ++ path) h g.Middleware

/-- The call `g.GET(path, h)`. -/
def Group.GET (g : Group) (e : Echo) (path : String) (h : HandlerFunc) : Echo :=
  g.Add e "GET" path h

/-- The call `g.POST(path, h)`. -/
def Group.POST (g : Group) (e : Echo) (path : String) (h : HandlerFunc) : Echo :=
  g.Add e "POST" path h

/-- The request a handler receives. -/
structure Context where
  Method : String
  Path : String
  Query : List (String × String)
  deriving DecidableEq, Repr

/-- What a handler writes to the client. -/
inductive Response
  | Redirect (code : Int) (location : String)
  | JSON (code : Int) (body : Error)
  deriving DecidableEq, Repr

/-- The call `c.Redirect(code, url)`: echo refuses a code outside 300..308 and
otherwise writes the status with the Location header. -/
def Context.Redirect (_c : Context) (code : Int) (url : String) : Except String Response :=
  if code < 300 ∨ code > 308 then .error "invalid redirect status code"
  else .ok (.Redirect code url)

/-- The call `c.JSON(code, u)`. -/
def Context.JSON (_c : Context) (code : Int) (u : Error) : Except String Response :=
  .ok (.JSON code u)

/-! ## The function literals of main.go -/

/-- The handler of `groupPublic.GET("*", ...)`. -/
def redirectAdminHandler (c : Context) : Except String Response :=
  c.Redirect 301 "./admin/"

/-- The handler of `groupAdmin.GET("/logout", ...)`. -/
def logoutHandler (conf : Config) (c : Context) : Except String Response :=
  if conf.LogoutUrl ≠ "" then
    c.Redirect 302 conf.LogoutUrl
  else
    c.Redirect 302 "../"

/-- The handler of `e.GET("/ping", ...)`. -/
def pingHandler (c : Context) : Except String Response :=
  let u : Error := { Message := "OK" }
  c.JSON StatusOK u

/-- Running a registered handler on a request.  The method values of `h` are
code of package `webserver`: no result is given for them. -/
def HandlerFunc.call : HandlerFunc → Context → Option (Except String Response)
  | .redirectAdmin, c => some (redirectAdminHandler c)
  | .logout conf, c => some (logoutHandler conf c)
  | .ping, c => some (pingHandler c)
  | _, _ => none

/-! ## main -/

/-- Lines 31-54 of main.go: the echo instance before the store is opened.
The log level of `e.Logger` is not part of the echo value here. -/
def setupEcho : Echo :=
  let e := Echo.New
  let e := e.Use .Logger
  let view : ViewConfig :=
    { Root := "views", Master := "layouts/master", Extension := ".html", DisableCache := true }
  let e := { e with Renderer := some view }
  let e := { e with Validator := true }
  let e := e.Static "/static" "static"
  e

/-- Lines 66-123 of main.go: the registrations, in source order. -/
def registerRoutes (conf : Config) (e : Echo) : Echo :=
  -- UI Routes
  let groupPublic := e.Group "/"
  let e := groupPublic.GET e "*" .redirectAdmin
  let groupAdmin := e.Group "/admin"
  let groupAdmin :=
    if conf.AdminLogin ≠ "" then groupAdmin.Use (.BasicAuth .AuthenticateAdmin) else groupAdmin
  let e := groupAdmin.GET e "/" .ListHosts
  let e := groupAdmin.GET e "/hosts/add" .AddHost
  let e := groupAdmin.GET e "/hosts/edit/:id" .EditHost
  let e := groupAdmin.GET e "/hosts" .ListHosts
  let e := groupAdmin.GET e "/cnames/add" .AddCName
  let e := groupAdmin.GET e "/cnames" .ListCNames
  let e := groupAdmin.GET e "/logs" .ShowLogs
  let e := groupAdmin.GET e "/logs/host/:id" .ShowHostLogs
  -- Rest Routes
  let e := groupAdmin.POST e "/hosts/add" .CreateHost
  let e := groupAdmin.POST e "/hosts/edit/:id" .UpdateHost
  let e := groupAdmin.GET e "/hosts/delete/:id" .DeleteHost
  let e := groupAdmin.GET e "/logout" (.logout conf)
  let e := groupAdmin.POST e "/cnames/add" .CreateCName
  let e := groupAdmin.GET e "/cnames/delete/:id" .DeleteCName
  -- dyndns compatible api
  let updateRoute := e.Group "/update"
  let updateRoute := updateRoute.Use (.BasicAuth .AuthenticateUpdate)
  let e := updateRoute.GET e "" .UpdateIP
  let nicRoute := e.Group "/nic"
  let nicRoute := nicRoute.Use (.BasicAuth .AuthenticateUpdate)
  let e := nicRoute.GET e "/update" .UpdateIP
  let v2Route := e.Group "/v2"
  let v2Route := v2Route.Use (.BasicAuth .AuthenticateUpdate)
  let e := v2Route.GET e "/update" .UpdateIP
  let v3Route := e.Group "/v3"
  let v3Route := v3Route.Use (.BasicAuth .AuthenticateUpdate)
  let e := v3Route.GET e "/update" .UpdateIP
  -- health-check
  let e := e.GET "/ping" .ping
  e

/-- The echo instance main serves: set-up, then the registrations. -/
def buildEcho (conf : Config) : Echo :=
  registerRoutes conf setupEcho

/-- The struct literal `dnsServer` of main.go. -/
def dnsServer : Server :=
  { Host := "", Port := 53, RTimeout := 5 * Second, WTimeout := 5 * Second }

/-- What the world outside main.go answers: the results of `config.ParseEnvs`
and `db.InitDB`, whether `dnsServer.Run` returns to its caller, and the error
`e.Start` returns when the HTTP server stops (`none`: it keeps serving). -/
structure Env where
  ParseEnvs : Except String Config
  InitDB : Except String DBConn
  RunReturns : Bool
  Start : Option String

/-- The calls of main that reach outside main.go, in execution order. -/
inductive Event
  | ParseEnvs
  | InitDB
  | New (conf : Config) (dbConn : DBConn)
  | Run (s : Server) (h : Handler)
  | Start (e : Echo) (addr : String)
  | Fatal (err : String)
  deriving DecidableEq, Repr

/-- The function `main`: the trace of its outside calls.  A fatal log call
ends the process, so the trace ends with it. -/
def main (env : Env) : List Event :=
  match env.ParseEnvs with
  | .error err => [.ParseEnvs, .Fatal err]
  | .ok conf =>
    let e := setupEcho
    match env.InitDB with
    | .error err => [.ParseEnvs, .InitDB, .Fatal err]
    | .ok dbConn =>
      let e := registerRoutes conf e
      let handler : Handler := { Config := conf, DB := dbConn }
      [.ParseEnvs, .InitDB, .New conf dbConn, .Run dnsServer handler] ++
        (if env.RunReturns then
          Event.Start e ":8080" ::
            (match env.Start with
             | some err => [.Fatal err]
             | none => [])
         else [])

/-! ## Observations on the route table and on traces -/

/-- The routes of `e` registered for a method and a path. -/
def Echo.lookup (e : Echo) (method path : String) : List Route :=
  e.Routes.filter (fun r => r.Method = method ∧ r.Path = path)

/-- The routes of `e` bound to a handler. -/
def Echo.routesTo (e : Echo) (h : HandlerFunc) : List Route :=
  e.Routes.filter (fun r => r.Handler = h)

/-- Every middleware a request to route `r` passes: the global ones of the
echo instance, then the ones of the route. -/
def Echo.chain (e : Echo) (r : Route) : List MiddlewareFunc :=
  e.Middleware ++ r.Middleware

/-- Whether a middleware is a Basic Authentication middleware. -/
def MiddlewareFunc.isAuth : MiddlewareFunc → Bool
  | .BasicAuth _ => true
  | .Logger => false

/-- The handlers of the admin area, as main.go registers them. -/
def HandlerFunc.isAdmin : HandlerFunc → Bool
  | .ListHosts | .AddHost | .EditHost | .CreateHost | .UpdateHost | .DeleteHost
  | .AddCName | .ListCNames | .CreateCName | .DeleteCName | .ShowLogs | .ShowHostLogs
  | .logout _ => true
  | _ => false

/-- The events that construct or start a server: `webserver.New`,
`dnsServer.Run`, `e.Start`. -/
def Event.isServe : Event → Bool
  | .New _ _ | .Run _ _ | .Start _ _ => true
  | _ => false

end Dyndns

namespace Dyndns

/-! ## The route table, spelled out -/

/-- The middleware of the admin group: Basic Authentication with the admin
validator when an admin login is configured, nothing otherwise. -/
def adminMiddleware (conf : Config) : List MiddlewareFunc :=
  if conf.AdminLogin ≠ "" then [.BasicAuth .AuthenticateAdmin] else []

/-- The only global middleware of the echo instance is the request logger. -/
theorem buildEcho_middleware (conf : Config) :
    (buildEcho conf).Middleware = [.Logger] := by
  rfl

/-- The twenty routes main registers, in source order. -/
theorem buildEcho_routes (conf : Config) :
    (buildEcho conf).Routes =
      [ ⟨"GET", "/*", .redirectAdmin, []⟩,
        ⟨"GET", "/admin/", .ListHosts, adminMiddleware conf⟩,
        ⟨"GET", "/admin/hosts/add", .AddHost, adminMiddleware conf⟩,
        ⟨"GET", "/admin/hosts/edit/:id", .EditHost, adminMiddleware conf⟩,
        ⟨"GET", "/admin/hosts", .ListHosts, adminMiddleware conf⟩,
        ⟨"GET", "/admin/cnames/add", .AddCName, adminMiddleware conf⟩,
        ⟨"GET", "/admin/cnames", .ListCNames, adminMiddleware conf⟩,
        ⟨"GET", "/admin/logs", .ShowLogs, adminMiddleware conf⟩,
        ⟨"GET", "/admin/logs/host/:id", .ShowHostLogs, adminMiddleware conf⟩,
        ⟨"POST", "/admin/hosts/add", .CreateHost, adminMiddleware conf⟩,
        ⟨"POST", "/admin/hosts/edit/:id", .UpdateHost, adminMiddleware conf⟩,
        ⟨"GET", "/admin/hosts/delete/:id", .DeleteHost, adminMiddleware conf⟩,
        ⟨"GET", "/admin/logout", .logout conf, adminMiddleware conf⟩,
        ⟨"POST", "/admin/cnames/add", .CreateCName, adminMiddleware conf⟩,
        ⟨"GET", "/admin/cnames/delete/:id", .DeleteCName, adminMiddleware conf⟩,
        ⟨"GET", "/update", .UpdateIP, [.BasicAuth .AuthenticateUpdate]⟩,
        ⟨"GET", "/nic/update", .UpdateIP, [.BasicAuth .AuthenticateUpdate]⟩,
        ⟨"GET", "/v2/update", .UpdateIP, [.BasicAuth .AuthenticateUpdate]⟩,
        ⟨"GET", "/v3/update", .UpdateIP, [.BasicAuth .AuthenticateUpdate]⟩,
        ⟨"GET", "/ping", .ping, []⟩ ] := by
  by_cases h : conf.AdminLogin = "" <;>
    simp [buildEcho, registerRoutes, setupEcho, adminMiddleware, Echo.New, Echo.Use,
      Echo.Static, Echo.Add, Echo.GET, Echo.Group, Group.Use, Group.Add, Group.GET,
      Group.POST, h]

/-- C1: the four dyndns-compatible update paths are each bound to exactly one
handler, the method value `h.UpdateIP`, and no other route is bound to it. -/
theorem update_paths_share_handler (conf : Config) :
    ((buildEcho conf).lookup "GET" "/update").map (fun r => r.Handler) = [.UpdateIP] ∧
    ((buildEcho conf).lookup "GET" "/nic/update").map (fun r => r.Handler) = [.UpdateIP] ∧
    ((buildEcho conf).lookup "GET" "/v2/update").map (fun r => r.Handler) = [.UpdateIP] ∧
    ((buildEcho conf).lookup "GET" "/v3/update").map (fun r => r.Handler) = [.UpdateIP] ∧
    ((buildEcho conf).routesTo .UpdateIP).map (fun r => (r.Method, r.Path)) =
      [("GET", "/update"), ("GET", "/nic/update"), ("GET", "/v2/update"), ("GET", "/v3/update")] := by
  simp [Echo.lookup, Echo.routesTo, buildEcho_routes]

/-- C2: whatever the configuration, every route bound to `h.UpdateIP` carries
the Basic Authentication middleware with validator `h.AuthenticateUpdate`;
such routes exist, and they are the same in any two configurations. -/
theorem update_routes_authenticated (conf conf2 : Config) :
    (∀ r ∈ (buildEcho conf).Routes, r.Handler = .UpdateIP →
      MiddlewareFunc.BasicAuth .AuthenticateUpdate ∈ r.Middleware) ∧
    (buildEcho conf).routesTo .UpdateIP ≠ [] ∧
    (buildEcho conf).routesTo .UpdateIP = (buildEcho conf2).routesTo .UpdateIP := by
  simp [Echo.routesTo, buildEcho_routes]

/-- C3: in every configuration and for every request, GET /ping has exactly
one route, its handler answers status 200 with the JSON body
`Error{Message: "OK"}`, and no middleware on the way to it is a Basic
Authentication middleware. -/
theorem ping_fixed_ok (conf : Config) (c : Context) :
    ((buildEcho conf).lookup "GET" "/ping").map (fun r => r.Handler.call c) =
      [some (.ok (.JSON 200 { Message := "OK" }))] ∧
    ((buildEcho conf).lookup "GET" "/ping").map
      (fun r => ((buildEcho conf).chain r).any MiddlewareFunc.isAuth) = [false] := by
  simp [Echo.lookup, Echo.chain, buildEcho_routes, buildEcho_middleware, HandlerFunc.call,
    pingHandler, Context.JSON, StatusOK, MiddlewareFunc.isAuth]

/-- C8: in every configuration and for every request, the catch-all route
GET /* of the public group has exactly one handler, and it answers with a
redirect of status 301 to "./admin/". -/
theorem catch_all_redirects_to_admin (conf : Config) (c : Context) :
    ((buildEcho conf).lookup "GET" "/*").map (fun r => r.Handler.call c) =
      [some (.ok (.Redirect 301 "./admin/"))] := by
  simp [Echo.lookup, buildEcho_routes, HandlerFunc.call, redirectAdminHandler,
    Context.Redirect]

/-- C9: the routes bound to admin handlers are the fourteen registrations of
the /admin group; each of them carries Basic Authentication with validator
`h.AuthenticateAdmin` exactly when `conf.AdminLogin` is not empty; when it is
empty none of them passes any Basic Authentication middleware. -/
theorem admin_auth_iff_login (conf : Config) :
    ((buildEcho conf).Routes.filter (fun r => r.Handler.isAdmin)).map
        (fun r => (r.Method, r.Path, r.Handler)) =
      [ ("GET", "/admin/", .ListHosts),
        ("GET", "/admin/hosts/add", .AddHost),
        ("GET", "/admin/hosts/edit/:id", .EditHost),
        ("GET", "/admin/hosts", .ListHosts),
        ("GET", "/admin/cnames/add", .AddCName),
        ("GET", "/admin/cnames", .ListCNames),
        ("GET", "/admin/logs", .ShowLogs),
        ("GET", "/admin/logs/host/:id", .ShowHostLogs),
        ("POST", "/admin/hosts/add", .CreateHost),
        ("POST", "/admin/hosts/edit/:id", .UpdateHost),
        ("GET", "/admin/hosts/delete/:id", .DeleteHost),
        ("GET", "/admin/logout", .logout conf),
        ("POST", "/admin/cnames/add", .CreateCName),
        ("GET", "/admin/cnames/delete/:id", .DeleteCName) ] ∧
    (∀ r ∈ (buildEcho conf).Routes, r.Handler.isAdmin = true →
      (MiddlewareFunc.BasicAuth .AuthenticateAdmin ∈ r.Middleware ↔ conf.AdminLogin ≠ "")) ∧
    (∀ r ∈ (buildEcho conf).Routes, r.Handler.isAdmin = true →
      (((buildEcho conf).chain r).any MiddlewareFunc.isAuth = true ↔ conf.AdminLogin ≠ "")) := by
  by_cases h : conf.AdminLogin = "" <;>
    simp [Echo.chain, buildEcho_routes, buildEcho_middleware, adminMiddleware,
      HandlerFunc.isAdmin, MiddlewareFunc.isAuth, h]

/-! ## The handler of /admin/logout -/

/-- C7, as stated, fails: with `LogoutUrl` set to "../" the logout handler
redirects to "../" although `LogoutUrl` is not the empty string, so the
target "../" does not occur exactly when `LogoutUrl` is empty. -/
theorem logout_default_target_not_only_when_empty :
    (HandlerFunc.logout ⟨"", "../", []⟩).call ⟨"GET", "/admin/logout", []⟩ =
      some (.ok (.Redirect 302 "../")) ∧
    (⟨"", "../", []⟩ : Config).LogoutUrl ≠ "" ∧
    ¬ ((HandlerFunc.logout ⟨"", "../", []⟩).call ⟨"GET", "/admin/logout", []⟩ =
        some (.ok (.Redirect 302 "../")) ↔ (⟨"", "../", []⟩ : Config).LogoutUrl = "") := by
  simp [HandlerFunc.call, logoutHandler, Context.Redirect]

/-- C7, amended: in every configuration and for every request, GET
/admin/logout has exactly one route; its handler answers with a redirect of
status 302, to `conf.LogoutUrl` when that is not empty and to "../" when it is
empty; the target is "../" exactly when `conf.LogoutUrl` is empty or is
"../" itself. -/
theorem logout_redirects (conf : Config) (c : Context) :
    ((buildEcho conf).lookup "GET" "/admin/logout").map (fun r => r.Handler) =
      [.logout conf] ∧
    (conf.LogoutUrl ≠ "" →
      (HandlerFunc.logout conf).call c = some (.ok (.Redirect 302 conf.LogoutUrl))) ∧
    (conf.LogoutUrl = "" →
      (HandlerFunc.logout conf).call c = some (.ok (.Redirect 302 "../"))) ∧
    ((HandlerFunc.logout conf).call c = some (.ok (.Redirect 302 "../")) ↔
      (conf.LogoutUrl = "" ∨ conf.LogoutUrl = "../")) := by
  refine ⟨by simp [Echo.lookup, buildEcho_routes], ?_, ?_, ?_⟩
  · intro h
    simp [HandlerFunc.call, logoutHandler, Context.Redirect, h]
  · intro h
    simp [HandlerFunc.call, logoutHandler, Context.Redirect, h]
  · by_cases h : conf.LogoutUrl = ""
    · simp [HandlerFunc.call, logoutHandler, Context.Redirect, h]
    · simp [HandlerFunc.call, logoutHandler, Context.Redirect, h]

/-! ## The start-up sequence -/

/-- The trace of main when `config.ParseEnvs` fails. -/
theorem main_parse_error (env : Env) (err : String) (h : env.ParseEnvs = .error err) :
    main env = [.ParseEnvs, .Fatal err] := by
  simp [main, h]

/-- The trace of main when `db.InitDB` fails. -/
theorem main_db_error (env : Env) (conf : Config) (err : String)
    (hc : env.ParseEnvs = .ok conf) (hd : env.InitDB = .error err) :
    main env = [.ParseEnvs, .InitDB, .Fatal err] := by
  simp [main, hc, hd]

/-- The trace of main when both start-up calls succeed: four fixed events,
then at most the HTTP server start and the fatal log call of its error. -/
theorem main_ok (env : Env) (conf : Config) (dbConn : DBConn)
    (hc : env.ParseEnvs = .ok conf) (hd : env.InitDB = .ok dbConn) :
    ∃ tail, main env =
        .ParseEnvs :: .InitDB :: .New conf dbConn :: .Run dnsServer ⟨conf, dbConn⟩ :: tail ∧
      (env.RunReturns = true → Event.Start (buildEcho conf) ":8080" ∈ tail) ∧
      ∀ ev ∈ tail, ev = .Start (buildEcho conf) ":8080" ∨ ∃ err, ev = .Fatal err := by
  cases hr : env.RunReturns <;> cases hs : env.Start <;>
    simp [main, hc, hd, hr, hs, buildEcho]

/-- C4: when `config.ParseEnvs` and `db.InitDB` both succeed, every event of
the trace that constructs or starts a server (`webserver.New`, `dnsServer.Run`,
`e.Start`) has the `db.InitDB` call before it; the web handler and the DNS
handler are both constructed, and only ever constructed, from `conf` and
`dbConn`. -/
theorem store_opened_before_servers (env : Env) (conf : Config) (dbConn : DBConn)
    (hc : env.ParseEnvs = .ok conf) (hd : env.InitDB = .ok dbConn) :
    (∀ pre ev post, main env = pre ++ ev :: post → ev.isServe = true → Event.InitDB ∈ pre) ∧
    (∃ pre post, main env = pre ++ Event.New conf dbConn :: post ∧
      Event.Run dnsServer ⟨conf, dbConn⟩ ∈ post) ∧
    (∀ c d, Event.New c d ∈ main env → c = conf ∧ d = dbConn) ∧
    (∀ s h, Event.Run s h ∈ main env → h.Config = conf ∧ h.DB = dbConn) ∧
    (∀ e addr, Event.Start e addr ∈ main env → e = buildEcho conf) := by
  obtain ⟨tail, hm, -, ht⟩ := main_ok env conf dbConn hc hd
  refine ⟨?_, ⟨[.ParseEnvs, .InitDB], _, hm, by simp⟩, ?_, ?_, ?_⟩
  · intro pre ev post h hs
    rw [hm] at h
    rcases pre with _ | ⟨a, _ | ⟨b, pre⟩⟩
    · simp at h
      rw [← h.1] at hs
      simp [Event.isServe] at hs
    · simp at h
      rw [← h.2.1] at hs
      simp [Event.isServe] at hs
    · simp at h
      simp [h.2.1]
  · intro c d h
    rw [hm] at h
    simp at h
    rcases h with h | h
    · exact h
    · rcases ht _ h with h2 | ⟨err, h2⟩ <;> simp at h2
  · intro s h hmem
    rw [hm] at hmem
    simp at hmem
    rcases hmem with h1 | h1
    · rw [h1.2]
      exact ⟨rfl, rfl⟩
    · rcases ht _ h1 with h2 | ⟨err, h2⟩ <;> simp at h2
  · intro e addr hmem
    rw [hm] at hmem
    simp at hmem
    rcases ht _ hmem with h2 | ⟨err, h2⟩
    · simp at h2
      exact h2.1
    · simp at h2

/-- C4 at a concrete run: both calls succeed, `dnsServer.Run` returns and the
HTTP server keeps serving. -/
theorem store_opened_before_servers_witness :
    (∀ pre ev post,
        main ⟨.ok ⟨"admin:hash", "", []⟩, .ok ⟨1⟩, true, none⟩ = pre ++ ev :: post →
        ev.isServe = true → Event.InitDB ∈ pre) ∧
    (∃ pre post,
        main ⟨.ok ⟨"admin:hash", "", []⟩, .ok ⟨1⟩, true, none⟩ =
          pre ++ Event.New ⟨"admin:hash", "", []⟩ ⟨1⟩ :: post ∧
        Event.Run dnsServer ⟨⟨"admin:hash", "", []⟩, ⟨1⟩⟩ ∈ post) ∧
    (∀ c d, Event.New c d ∈ main ⟨.ok ⟨"admin:hash", "", []⟩, .ok ⟨1⟩, true, none⟩ →
      c = ⟨"admin:hash", "", []⟩ ∧ d = ⟨1⟩) ∧
    (∀ s h, Event.Run s h ∈ main ⟨.ok ⟨"admin:hash", "", []⟩, .ok ⟨1⟩, true, none⟩ →
      h.Config = ⟨"admin:hash", "", []⟩ ∧ h.DB = ⟨1⟩) ∧
    (∀ e addr, Event.Start e addr ∈ main ⟨.ok ⟨"admin:hash", "", []⟩, .ok ⟨1⟩, true, none⟩ →
      e = buildEcho ⟨"admin:hash", "", []⟩) :=
  store_opened_before_servers ⟨.ok ⟨"admin:hash", "", []⟩, .ok ⟨1⟩, true, none⟩
    ⟨"admin:hash", "", []⟩ ⟨1⟩ rfl rfl

/-- C5: when `config.ParseEnvs` fails, or when it succeeds and `db.InitDB`
fails, the trace ends with the fatal log call carrying that error and holds no
event that constructs or starts a server; and such an event occurs only when
both calls returned without error. -/
theorem startup_failures_fatal (env : Env) :
    (∀ err, env.ParseEnvs = .error err →
      (main env).getLast? = some (.Fatal err) ∧ ∀ ev ∈ main env, ev.isServe = false) ∧
    (∀ conf err, env.ParseEnvs = .ok conf → env.InitDB = .error err →
      (main env).getLast? = some (.Fatal err) ∧ ∀ ev ∈ main env, ev.isServe = false) ∧
    (∀ ev ∈ main env, ev.isServe = true →
      ∃ conf dbConn, env.ParseEnvs = .ok conf ∧ env.InitDB = .ok dbConn) := by
  refine ⟨?_, ?_, ?_⟩
  · intro err h
    simp [main_parse_error env err h, Event.isServe]
  · intro conf err hc hd
    simp [main_db_error env conf err hc hd, Event.isServe]
  · intro ev hmem hs
    cases hc : env.ParseEnvs with
    | error err =>
      rw [main_parse_error env err hc] at hmem
      simp at hmem
      rcases hmem with h | h <;> simp [h, Event.isServe] at hs
    | ok conf =>
      cases hd : env.InitDB with
      | error err =>
        rw [main_db_error env conf err hc hd] at hmem
        simp at hmem
        rcases hmem with h | h | h <;> simp [h, Event.isServe] at hs
      | ok dbConn => exact ⟨conf, dbConn, rfl, rfl⟩

/-- C6: in every run, a DNS server value handed to `Run` has an empty host,
port 53 and read and write timeouts of 5 seconds, that is 5000000000
nanoseconds, positive and within the 64-bit range of a duration; when both
start-up calls succeed, that server is run. -/
theorem dns_server_settings (env : Env) :
    (∀ s h, Event.Run s h ∈ main env →
      s.Host = "" ∧ s.Port = 53 ∧
      s.RTimeout = 5 * Second ∧ s.WTimeout = 5 * Second ∧
      s.RTimeout = 5000000000 ∧ s.WTimeout = 5000000000 ∧
      0 < s.RTimeout ∧ s.RTimeout < 2 ^ 63 ∧ 0 < s.WTimeout ∧ s.WTimeout < 2 ^ 63) ∧
    (∀ conf dbConn, env.ParseEnvs = .ok conf → env.InitDB = .ok dbConn →
      ∃ s h, Event.Run s h ∈ main env) := by
  refine ⟨?_, ?_⟩
  · intro s h hmem
    have hs : s = dnsServer := by
      cases hc : env.ParseEnvs with
      | error err =>
        rw [main_parse_error env err hc] at hmem
        simp at hmem
      | ok conf =>
        cases hd : env.InitDB with
        | error err =>
          rw [main_db_error env conf err hc hd] at hmem
          simp at hmem
        | ok dbConn =>
          obtain ⟨tail, hm, -, ht⟩ := main_ok env conf dbConn hc hd
          rw [hm] at hmem
          simp at hmem
          rcases hmem with h1 | h1
          · exact h1.1
          · rcases ht _ h1 with h2 | ⟨err, h2⟩ <;> simp at h2
    subst hs
    simp [dnsServer, Second]
  · intro conf dbConn hc hd
    obtain ⟨tail, hm, -, -⟩ := main_ok env conf dbConn hc hd
    exact ⟨dnsServer, ⟨conf, dbConn⟩, by simp [hm]⟩

end Dyndns
